import Mathlib

/-!
Verification development for the `errolee/fullstack` Express/MongoDB backend.

The embedding models the JSON/BSON value space, the two backing collections
(`Lessons` and `Orders`) of the Mongo database `db1`, and each route handler of
`src/server.js` (the primary variant; `src/unnamed/part_000` contributes the
`PUT /programs/:id` handler) as a pure state-passing function
`DB → input → DB × Resp`.

Modelling conventions, each tied to the source:
* JSON values are `Val`; `Val.undefn` is JavaScript `undefined` (produced by a
  missing-property access); `Val.oid` is a BSON ObjectId, represented by its
  canonical lower-case 24-character hex string.  JSON request bodies can never
  contain `undefn` or `oid` values.
* BSON serialization in the driver turns `undefined` into `null` by default
  (`ignoreUndefined: false`), modelled by `serializeVal` at insertion time.
* `insertOne` appends the document, with a store-generated `_id`; the id
  generator is modelled by a counter (`DB.nextId`) rendered as a hex string.
* `updateOne(filter, {$set: body})` updates the first document matching the
  filter, setting exactly the fields of `body` (`applySet`), and reports
  `matchedCount`/`modifiedCount`.
* `parseInt` on a path segment is `parseIntJS`: optional whitespace, optional
  sign, optional `0x`/`0X` hex prefix, longest digit prefix; no digits gives
  `none`, standing for `NaN`.  A `NaN` equality filter matches no document in
  the model, since no JSON-derived stored value is `NaN`.
* `new ObjectId(id)` accepts exactly 24-character hex strings
  (`isValidObjectIdString`) and otherwise throws, which the handlers' catch
  blocks forward to the global error handler (`internalErrorResp`).
-/

namespace Fullstack

mutual
/-- A JSON/BSON value as handled by the server. -/
inductive Val where
  | null : Val
  | undefn : Val
  | bool (b : Bool) : Val
  | num (n : Int) : Val
  | str (s : String) : Val
  | arr (elems : ValList) : Val
  | obj (fields : FieldList) : Val
  | oid (hex : String) : Val
deriving DecidableEq

/-- A list of JSON values (elements of a JSON array). -/
inductive ValList where
  | nil : ValList
  | cons (v : Val) (rest : ValList) : ValList
deriving DecidableEq

/-- An ordered field map (a JSON object / BSON document body). -/
inductive FieldList where
  | nil : FieldList
  | cons (key : String) (v : Val) (rest : FieldList) : FieldList
deriving DecidableEq
end

/-- First-occurrence lookup of a field in a document. -/
def FieldList.lookup : FieldList → String → Option Val
  | .nil, _ => none
  | .cons k v rest, key => if k = key then some v else rest.lookup key

/-- Mongo `$set` of a single field: overwrite in place when the key exists,
append at the end otherwise. -/
def FieldList.set : FieldList → String → Val → FieldList
  | .nil, key, v => .cons key v .nil
  | .cons k w rest, key, v =>
      if k = key then .cons key v rest else .cons k w (rest.set key v)

/-- The keys of a document, in order. -/
def FieldList.keys : FieldList → List String
  | .nil => []
  | .cons k _ rest => k :: rest.keys

/-- Mongo `updateOne` with `{$set: patch}` applied to one document: every field
of the patch is written, other fields are untouched (merge-patch). -/
def applySet : FieldList → FieldList → FieldList
  | .nil, d => d
  | .cons k v rest, d => applySet rest (d.set k v)

mutual
/-- BSON serialization as performed by the driver on insert with its default
`ignoreUndefined: false`: JavaScript `undefined` is stored as `null`. -/
def serializeVal : Val → Val
  | .undefn => .null
  | .arr es => .arr (serializeElems es)
  | .obj fs => .obj (serializeFields fs)
  | v => v

/-- `serializeVal` mapped over array elements. -/
def serializeElems : ValList → ValList
  | .nil => .nil
  | .cons v rest => .cons (serializeVal v) (serializeElems rest)

/-- `serializeVal` mapped over document fields. -/
def serializeFields : FieldList → FieldList
  | .nil => .nil
  | .cons k v rest => .cons k (serializeVal v) (serializeFields rest)
end

/-- JavaScript property access `v.key` on a value that is not `null` or
`undefined`: the field value for objects, `undefined` otherwise. -/
def jsProp : Val → String → Val
  | .obj fs, key => (fs.lookup key).getD .undefn
  | _, _ => .undefn

/-- State of the Mongo database `db1`: the `Lessons` and `Orders` collections
plus the counter feeding the ObjectId generator. -/
structure DB where
  lessons : List FieldList
  orders : List FieldList
  nextId : Nat
deriving DecidableEq

/-- An HTTP response: a status code and a JSON body. -/
inductive Resp where
  | json (status : Nat) (body : Val)
deriving DecidableEq

/-- The status code of a response. -/
def Resp.statusCode : Resp → Nat
  | .json s _ => s

/-- Response of the global error handler (server.js lines 193-196):
`res.status(500).json({error: "An internal server error occurred"})`. -/
def internalErrorResp : Resp :=
  .json 500 (.obj (.cons "error" (.str "An internal server error occurred") .nil))

/-- Response of the `POST /order` catch block (server.js line 138):
`res.status(500).json({error: "Failed to create order"})`. -/
def createFailResp : Resp :=
  .json 500 (.obj (.cons "error" (.str "Failed to create order") .nil))

/-- `res.status(404).json({error: 'Order not found'})` (server.js line 152). -/
def orderNotFoundResp : Resp :=
  .json 404 (.obj (.cons "error" (.str "Order not found") .nil))

/-- `res.status(404).json({error: 'Lesson not found'})` (server.js line 180). -/
def lessonNotFoundResp : Resp :=
  .json 404 (.obj (.cons "error" (.str "Lesson not found") .nil))

/-- `res.status(404).json({error: 'Program not found'})` (part_000 line 154). -/
def programNotFoundResp : Resp :=
  .json 404 (.obj (.cons "error" (.str "Program not found") .nil))

/-- The driver's `UpdateResult` as serialized by `res.json(result)`. -/
def updateResultVal (matched modified : Nat) : Val :=
  .obj (.cons "acknowledged" (.bool true)
    (.cons "modifiedCount" (.num modified)
      (.cons "upsertedId" .null
        (.cons "upsertedCount" (.num 0)
          (.cons "matchedCount" (.num matched) .nil)))))

/-- Whitespace skipped by JavaScript `parseInt`. -/
def isJsSpace (c : Char) : Bool :=
  c == ' ' || c == '\t' || c == '\n' || c == '\r' || c == '\x0b' || c == '\x0c'

/-- Numeric value of a hexadecimal digit character. -/
def hexDigitVal (c : Char) : Option Nat :=
  if '0' ≤ c ∧ c ≤ '9' then some (c.toNat - '0'.toNat)
  else if 'a' ≤ c ∧ c ≤ 'f' then some (c.toNat - 'a'.toNat + 10)
  else if 'A' ≤ c ∧ c ≤ 'F' then some (c.toNat - 'A'.toNat + 10)
  else none

/-- Numeric value of a digit character in the given base (10 or 16). -/
def digitValBase (base : Nat) (c : Char) : Option Nat :=
  match hexDigitVal c with
  | some d => if d < base then some d else none
  | none => none

/-- The longest prefix of valid digits in the given base. -/
def takeDigits (base : Nat) : List Char → List Nat
  | [] => []
  | c :: rest =>
    match digitValBase base c with
    | some d => d :: takeDigits base rest
    | none => []

/-- JavaScript `parseInt(s)`: skip whitespace, optional sign, auto-detected
`0x` hex prefix, longest digit prefix; `none` models the `NaN` result. -/
def parseIntJS (s : String) : Option Int :=
  let cs := s.toList.dropWhile isJsSpace
  let signed :=
    match cs with
    | '-' :: r => (true, r)
    | '+' :: r => (false, r)
    | _ => (false, cs)
  let based :=
    match signed.2 with
    | '0' :: 'x' :: r => (16, r)
    | '0' :: 'X' :: r => (16, r)
    | r => (10, r)
  match takeDigits based.1 based.2 with
  | [] => none
  | ds =>
    let n : Nat := ds.foldl (fun acc d => acc * based.1 + d) 0
    some (if signed.1 then -(n : Int) else (n : Int))

/-- Whether a character is a hexadecimal digit. -/
def isHexChar (c : Char) : Bool := (hexDigitVal c).isSome

/-- Lower-case an upper-case hexadecimal digit, leaving other characters
unchanged. -/
def lowerHexChar (c : Char) : Char :=
  if c = 'A' then 'a' else if c = 'B' then 'b' else if c = 'C' then 'c'
  else if c = 'D' then 'd' else if c = 'E' then 'e'
  else if c = 'F' then 'f' else c

/-- The canonical (lower-case) form of an ObjectId hex string, as produced by
`new ObjectId(id)`: ObjectId equality in the store is byte equality, so two
hex spellings differing only in case denote the same identity. -/
def normalizeId (s : String) : String := ⟨s.toList.map lowerHexChar⟩

/-- The strings accepted by `new ObjectId(id)` in the bson library:
exactly 24 hexadecimal characters.  Anything else makes the constructor
throw a `BSONError`. -/
def isValidObjectIdString (s : String) : Bool :=
  s.length == 24 && s.toList.all isHexChar

/-- The Mongo filter `{orderNo: n}` from server.js line 147 applied to one
document, with `none` standing for the `NaN` produced by `parseInt` on a
non-numeric segment; `NaN` compares unequal to every stored (JSON-derived,
hence `NaN`-free) value, so it matches nothing. -/
def matchesOrderFilter (flt : Option Int) (d : FieldList) : Bool :=
  match flt with
  | none => false
  | some n => decide (d.lookup "orderNo" = some (.num n))

/-- The Mongo filter `{_id: new ObjectId(hex)}` applied to one document,
with the ObjectId in canonical (lower-case) hex form. -/
def matchesObjectId (hex : String) (d : FieldList) : Bool :=
  decide (d.lookup "_id" = some (.oid hex))

/-- Result of a modelled `updateOne`: the new collection contents and the
driver's matched/modified counts. -/
structure UpdResult where
  docs : List FieldList
  matched : Nat
  modified : Nat
deriving DecidableEq

/-- Mongo `updateOne(filter, {$set: patch})` on a collection: update the first
matching document by merge-patching the fields of `patch`; `modifiedCount`
is 1 only when the write actually changed the document. -/
def updateFirst (m : FieldList → Bool) (patch : FieldList) :
    List FieldList → UpdResult
  | [] => ⟨[], 0, 0⟩
  | d :: rest =>
    if m d then
      let d' := applySet patch d
      ⟨d' :: rest, 1, if d' = d then 0 else 1⟩
    else
      let r := updateFirst m patch rest
      ⟨d :: r.docs, r.matched, r.modified⟩

/-- Store-generated ObjectId: the insertion counter rendered as a 24-character
lower-case hex string. -/
def genOid (n : Nat) : String :=
  let ds := Nat.toDigits 16 n
  ⟨List.replicate (24 - ds.length) '0' ++ ds⟩

/-- Mongo `insertOne` on the `Orders` collection: attach a store-generated
`_id`, serialize (turning `undefined` into `null`), append the document, and
return the generated id. -/
def insertOrder (db : DB) (doc : FieldList) : DB × String :=
  let g := genOid db.nextId
  (⟨db.lessons, db.orders ++ [.cons "_id" (.oid g) (serializeFields doc)],
    db.nextId + 1⟩, g)

/-- A list of documents rendered as a JSON array of objects, as produced by
`find({}).toArray()` followed by `res.json`. -/
def docsToValList : List FieldList → ValList
  | [] => .nil
  | d :: rest => .cons (.obj d) (docsToValList rest)

/-- `GET /lessons` (server.js lines 93-102): return every document of the
`Lessons` collection. -/
def getLessons (db : DB) : DB × Resp :=
  (db, .json 200 (.arr (docsToValList db.lessons)))

/-- `GET /orders` (server.js lines 105-114): return every document of the
`Orders` collection. -/
def getOrders (db : DB) : DB × Resp :=
  (db, .json 200 (.arr (docsToValList db.orders)))

/-- The reshaping `({lessonID: lesson.lessonID, spaces: lesson.spaces})` of one
element of `orderData.lessons` (server.js lines 121-124), assuming the
property accesses succeed. -/
def normalizeLesson (l : Val) : Val :=
  .obj (.cons "lessonID" (jsProp l "lessonID")
    (.cons "spaces" (jsProp l "spaces") .nil))

/-- `normalizeLesson` mapped over a lesson array. -/
def normalizeLessons : ValList → ValList
  | .nil => .nil
  | .cons l rest => .cons (normalizeLesson l) (normalizeLessons rest)

/-- The reshaping of one lesson element including its failure mode: property
access on `null` or `undefined` throws a `TypeError`. -/
def reshapeLesson : Val → Except Unit Val
  | .null => .error ()
  | .undefn => .error ()
  | l => .ok (normalizeLesson l)

/-- `orderData.lessons.map(...)` (server.js line 121): reshape each element in
order, stopping at the first element whose property access throws. -/
def reshapeLessons : ValList → Except Unit ValList
  | .nil => .ok .nil
  | .cons l rest =>
    match reshapeLesson l with
    | .error e => .error e
    | .ok v =>
      match reshapeLessons rest with
      | .error e => .error e
      | .ok vs => .ok (.cons v vs)

/-- `POST /order` (server.js lines 117-140): read `orderData.lessons`, reshape
it into `{lessonID, spaces}` pairs, build the order document from the four
fields `name`, `phone`, `lessons`, `totalPrice`, insert it, and answer
`{insertedId}`.  Any thrown `TypeError` (body without a usable `lessons`
array, or a `null`/`undefined` array element) is caught by the handler's own
catch block, which answers 500 `Failed to create order` directly. -/
def postOrder (db : DB) (body : Val) : DB × Resp :=
  match body with
  | .obj bf =>
    match bf.lookup "lessons" with
    | some (.arr ls) =>
      match reshapeLessons ls with
      | .ok ls' =>
        let order : FieldList :=
          .cons "name" ((bf.lookup "name").getD .undefn)
            (.cons "phone" ((bf.lookup "phone").getD .undefn)
              (.cons "lessons" (.arr ls')
                (.cons "totalPrice" ((bf.lookup "totalPrice").getD .undefn) .nil)))
        let r := insertOrder db order
        (r.1, .json 200 (.obj (.cons "insertedId" (.oid r.2) .nil)))
      | .error _ => (db, createFailResp)
    | _ => (db, createFailResp)
  | _ => (db, createFailResp)

/-- `PUT /order/:orderNo` (server.js lines 143-161): filter the `Orders`
collection by `{orderNo: parseInt(orderNo)}`, `$set` the request body on the
first match; zero matches answer 404, otherwise the update result. -/
def putOrderByNo (db : DB) (orderNo : String) (body : FieldList) : DB × Resp :=
  let r := updateFirst (matchesOrderFilter (parseIntJS orderNo)) body db.orders
  if r.matched = 0 then
    (⟨db.lessons, r.docs, db.nextId⟩, orderNotFoundResp)
  else
    (⟨db.lessons, r.docs, db.nextId⟩, .json 200 (updateResultVal r.matched r.modified))

/-- `PUT /lessons/:id` (server.js lines 165-189): `new ObjectId(id)` throws on
an invalid id, landing in the global error handler; otherwise filter the
`Lessons` collection by `{_id}` and `$set` the body on the first match; zero
matches answer 404, otherwise the update result. -/
def putLessonById (db : DB) (id : String) (body : FieldList) : DB × Resp :=
  if isValidObjectIdString id then
    let r := updateFirst (matchesObjectId (normalizeId id)) body db.lessons
    if r.matched = 0 then
      (⟨r.docs, db.orders, db.nextId⟩, lessonNotFoundResp)
    else
      (⟨r.docs, db.orders, db.nextId⟩, .json 200 (updateResultVal r.matched r.modified))
  else (db, internalErrorResp)

/-- `PUT /programs/:id` (part_000 lines 145-163): identical to the lessons
update (same `Lessons` collection, same `{_id}` filter), with its own 404
message. -/
def putProgramById (db : DB) (id : String) (body : FieldList) : DB × Resp :=
  if isValidObjectIdString id then
    let r := updateFirst (matchesObjectId (normalizeId id)) body db.lessons
    if r.matched = 0 then
      (⟨r.docs, db.orders, db.nextId⟩, programNotFoundResp)
    else
      (⟨r.docs, db.orders, db.nextId⟩, .json 200 (updateResultVal r.matched r.modified))
  else (db, internalErrorResp)

/-- The `collectionName` param middleware of server.js lines 71-80 composed
with the rest of the pipeline: `db1.collection(name)` throws a `TypeError`
while `db1` is still `undefined` (connection not yet established), the catch
block forwards the error with `next(err)`, and the terminal error handler
answers; once connected, the bound collection name is handed to the
continuation `k` (the matched route handler). -/
def collectionParam (db1 : Option DB) (name : String) (k : String → Resp) : Resp :=
  match db1 with
  | none => internalErrorResp
  | some _ => k name

/-- The three merge-patch update endpoints of the system. -/
inductive UpdateEndpoint where
  | lessonsById : UpdateEndpoint
  | programsById : UpdateEndpoint
  | orderByNo : UpdateEndpoint
deriving DecidableEq

/-- Dispatch an update request to its handler. -/
def runUpdate : UpdateEndpoint → DB → String → FieldList → DB × Resp
  | .lessonsById, db, seg, body => putLessonById db seg body
  | .programsById, db, seg, body => putProgramById db seg body
  | .orderByNo, db, seg, body => putOrderByNo db seg body

/-- Well-formedness of the identity path segment for an endpoint: an integer
order number, respectively a valid ObjectId hex string. -/
def wellFormedSeg : UpdateEndpoint → String → Bool
  | .orderByNo, s => (parseIntJS s).isSome
  | _, s => isValidObjectIdString s

/-- The per-document identity filter an endpoint derives from its path
segment. -/
def segFilter : UpdateEndpoint → String → FieldList → Bool
  | .orderByNo, s, d => matchesOrderFilter (parseIntJS s) d
  | _, s, d => matchesObjectId (normalizeId s) d

/-- The collection an update endpoint operates on. -/
def targetDocs : UpdateEndpoint → DB → List FieldList
  | .orderByNo, db => db.orders
  | _, db => db.lessons

/-- The 404 response of each update endpoint. -/
def endpointNotFound : UpdateEndpoint → Resp
  | .lessonsById => lessonNotFoundResp
  | .programsById => programNotFoundResp
  | .orderByNo => orderNotFoundResp

/-- The document field each endpoint's identity filter selects on. -/
def filterFieldName : UpdateEndpoint → String
  | .orderByNo => "orderNo"
  | _ => "_id"

/-- Whether every element of a lesson array survives the handler's property
accesses, i.e. none is `null` or `undefined`. -/
def cleanElems : ValList → Bool
  | .nil => true
  | .cons l rest =>
      decide (l ≠ .null) && decide (l ≠ .undefn) && cleanElems rest

/-! Concrete fixtures used by witnesses and counterexamples. -/

/-- An empty store. -/
def emptyDB : DB := ⟨[], [], 0⟩

/-- A one-element lesson array using this deployment's quantity field name. -/
def goodLessonArr : ValList :=
  .cons (.obj (.cons "lessonID" (.str "L1") (.cons "spaces" (.num 2) .nil))) .nil

/-- A well-formed order request body (`spaces`-style lessons array). -/
def goodOrderFields : FieldList :=
  .cons "name" (.str "A")
    (.cons "phone" (.str "123")
      (.cons "lessons" (.arr goodLessonArr)
        (.cons "totalPrice" (.num 40) .nil)))

/-- An order request body whose lessons array holds a single `null` element. -/
def nullLessonBody : Val :=
  .obj (.cons "name" (.str "A")
    (.cons "phone" (.str "123")
      (.cons "lessons" (.arr (.cons .null .nil))
        (.cons "totalPrice" (.num 40) .nil))))

/-- The spec's round-trip body, with the quantity under `availability`. -/
def availabilityBody : Val :=
  .obj (.cons "name" (.str "A")
    (.cons "phone" (.str "123")
      (.cons "lessons" (.arr (.cons (.obj (.cons "lessonID" (.str "L1")
          (.cons "availability" (.num 2) .nil))) .nil))
        (.cons "totalPrice" (.num 40) .nil))))

/-- A lesson document with a known ObjectId. -/
def sampleLessonDoc : FieldList :=
  .cons "_id" (.oid "aaaaaaaaaaaaaaaaaaaaaaaa")
    (.cons "subject" (.str "Math")
      (.cons "price" (.num 10)
        (.cons "spaces" (.num 5) .nil)))

/-- A store holding exactly that one lesson. -/
def lessonDB : DB := ⟨[sampleLessonDoc], [], 0⟩

/-- A store holding one order document with order number 5. -/
def orderNo5DB : DB :=
  ⟨[], [.cons "orderNo" (.num 5) (.cons "name" (.str "B") .nil)], 0⟩

/-- A store holding two order documents sharing order number 5. -/
def dupOrdersDB : DB :=
  ⟨[], [.cons "orderNo" (.num 5) .nil,
        .cons "orderNo" (.num 5) (.cons "name" (.str "B") .nil)], 0⟩

/-- A merge-patch that rewrites the order number. -/
def orderNoPatch : FieldList := .cons "orderNo" (.num 99) .nil

/-- A harmless single-field merge-patch. -/
def pricePatch : FieldList := .cons "price" (.num 20) .nil

end Fullstack

namespace Fullstack

/-! Helper lemmas about the modelled store operations. -/

/-- Structural induction for field maps (derived from the mutual recursor). -/
@[induction_eliminator]
theorem FieldList.fieldInduction {motive : FieldList → Prop} (nil : motive .nil)
    (cons : ∀ k v rest, motive rest → motive (.cons k v rest)) (d : FieldList) :
    motive d :=
  match d with
  | .nil => nil
  | .cons k v rest => cons k v rest (FieldList.fieldInduction nil cons rest)

/-- Structural induction for value lists (derived from the mutual recursor). -/
@[induction_eliminator]
theorem ValList.elemInduction {motive : ValList → Prop} (nil : motive .nil)
    (cons : ∀ v rest, motive rest → motive (.cons v rest)) (l : ValList) :
    motive l :=
  match l with
  | .nil => nil
  | .cons v rest => cons v rest (ValList.elemInduction nil cons rest)

/-- Setting a field makes it readable. -/
theorem lookup_set_self (d : FieldList) (k : String) (v : Val) :
    (d.set k v).lookup k = some v := by
  induction d with
  | nil => simp [FieldList.set, FieldList.lookup]
  | cons k' w rest ih =>
    by_cases h : k' = k
    · simp [FieldList.set, h, FieldList.lookup]
    · simp [FieldList.set, h, FieldList.lookup, ih]

/-- Setting a field leaves every other field unchanged. -/
theorem lookup_set_ne (d : FieldList) (k k' : String) (v : Val) (h : k' ≠ k) :
    (d.set k v).lookup k' = d.lookup k' := by
  have h2 : ¬k = k' := fun h' => h h'.symm
  induction d with
  | nil => simp [FieldList.set, FieldList.lookup, h2]
  | cons k₁ w rest ih =>
    by_cases h₁ : k₁ = k
    · subst h₁
      simp [FieldList.set, FieldList.lookup, h2]
    · simp [FieldList.set, h₁, FieldList.lookup, ih]

/-- Writing the value a field already holds is a no-op. -/
theorem set_eq_of_lookup (d : FieldList) (k : String) (v : Val)
    (h : d.lookup k = some v) : d.set k v = d := by
  induction d with
  | nil => simp [FieldList.lookup] at h
  | cons k₁ w rest ih =>
    by_cases h₁ : k₁ = k
    · subst h₁
      simp [FieldList.lookup] at h
      simp [FieldList.set, h]
    · simp [FieldList.lookup, h₁] at h
      simp [FieldList.set, h₁, ih h]

/-- The second of two writes to the same field wins. -/
theorem set_set_same (d : FieldList) (k : String) (v w : Val) :
    (d.set k v).set k w = d.set k w := by
  induction d with
  | nil => simp [FieldList.set]
  | cons k₁ u rest ih =>
    by_cases h₁ : k₁ = k
    · simp [FieldList.set, h₁]
    · simp [FieldList.set, h₁, ih]

/-- A merge-patch leaves fields outside its key set unchanged. -/
theorem lookup_applySet_notMem (p : FieldList) (d : FieldList) (k : String)
    (h : k ∉ p.keys) :
    (applySet p d).lookup k = d.lookup k := by
  induction p generalizing d with
  | nil => rfl
  | cons k₁ v rest ih =>
    simp [FieldList.keys] at h
    rw [applySet, ih _ h.2, lookup_set_ne _ _ _ _ h.1]

/-- Re-writing a field to the value it held before a merge-patch that does not
collide with it is absorbed by re-running the patch. -/
theorem applySet_fix (p : FieldList) (k : String) (v : Val) (d : FieldList)
    (hnd : p.keys.Nodup) (h : d.lookup k = some v) :
    applySet p ((applySet p d).set k v) = applySet p d := by
  induction p generalizing d v with
  | nil => simpa [applySet] using set_eq_of_lookup d k v h
  | cons k₂ w rest ih =>
    simp [FieldList.keys, List.nodup_cons] at hnd
    rw [applySet, applySet]
    by_cases hk : k₂ = k
    · subst hk
      rw [set_set_same]
      exact ih w (d.set k₂ w) hnd.2 (lookup_set_self d k₂ w)
    · have habs : ((applySet rest (d.set k₂ w)).set k v).lookup k₂ = some w := by
        rw [lookup_set_ne _ _ _ _ hk, lookup_applySet_notMem _ _ _ hnd.1,
          lookup_set_self]
      calc applySet rest (((applySet rest (d.set k₂ w)).set k v).set k₂ w)
          = applySet rest ((applySet rest (d.set k₂ w)).set k v) := by
            rw [set_eq_of_lookup _ _ _ habs]
        _ = applySet rest (d.set k₂ w) := by
            refine ih v (d.set k₂ w) hnd.2 ?_
            rw [lookup_set_ne _ _ _ _ (fun h' => hk h'.symm)]
            exact h

/-- A merge-patch whose keys are distinct (always true of a JSON object body)
is idempotent on a single document. -/
theorem applySet_idem (p : FieldList) (d : FieldList) (hnd : p.keys.Nodup) :
    applySet p (applySet p d) = applySet p d := by
  cases p with
  | nil => rfl
  | cons k v rest =>
    simp [FieldList.keys, List.nodup_cons] at hnd
    rw [applySet, applySet]
    exact applySet_fix rest k v (d.set k v) hnd.2 (lookup_set_self d k v)

/-- `updateOne` against a filter matching no document leaves the collection
unchanged and reports zero matches. -/
theorem updateFirst_of_none (m : FieldList → Bool) (p : FieldList)
    (l : List FieldList) (h : ∀ d ∈ l, m d = false) :
    updateFirst m p l = ⟨l, 0, 0⟩ := by
  induction l with
  | nil => rfl
  | cons d rest ih =>
    have hd := h d (by simp)
    rw [updateFirst, if_neg (by simp [hd])]
    simp [ih fun e he => h e (by simp [he])]

/-- `updateOne` against a filter whose first match is `d` merge-patches exactly
`d` and leaves every other document unchanged. -/
theorem updateFirst_decomp (m : FieldList → Bool) (p : FieldList)
    (pre post : List FieldList) (d : FieldList)
    (hpre : ∀ e ∈ pre, m e = false) (hd : m d = true) :
    updateFirst m p (pre ++ d :: post) =
      ⟨pre ++ applySet p d :: post, 1, if applySet p d = d then 0 else 1⟩ := by
  induction pre with
  | nil => simp [updateFirst, hd]
  | cons e rest ih =>
    have he := hpre e (by simp)
    rw [List.cons_append, updateFirst, if_neg (by simp [he])]
    simp [ih fun e' he' => hpre e' (by simp [he'])]

/-- Issuing the same `updateOne` twice leaves the collection in the same state
as issuing it once, provided the patch keeps a matched document matching. -/
theorem updateFirst_idem (m : FieldList → Bool) (p : FieldList)
    (hnd : p.keys.Nodup) (hpres : ∀ d, m d = true → m (applySet p d) = true)
    (l : List FieldList) :
    (updateFirst m p (updateFirst m p l).docs).docs = (updateFirst m p l).docs := by
  induction l with
  | nil => rfl
  | cons d rest ih =>
    by_cases h : m d = true
    · rw [updateFirst, if_pos h]
      rw [updateFirst, if_pos (hpres d h)]
      simp [applySet_idem p d hnd]
    · rw [updateFirst, if_neg (by simp [h])]
      rw [updateFirst, if_neg (by simp [h])]
      simpa using ih

/-- The order-number filter only reads the `orderNo` field, so a patch that
does not write `orderNo` preserves its verdict. -/
theorem matchesOrderFilter_applySet (flt : Option Int) (p : FieldList)
    (d : FieldList) (h : "orderNo" ∉ p.keys) :
    matchesOrderFilter flt (applySet p d) = matchesOrderFilter flt d := by
  cases flt with
  | none => rfl
  | some n => simp [matchesOrderFilter, lookup_applySet_notMem p d _ h]

/-- The `_id` filter only reads the `_id` field, so a patch that does not
write `_id` preserves its verdict. -/
theorem matchesObjectId_applySet (hex : String) (p : FieldList)
    (d : FieldList) (h : "_id" ∉ p.keys) :
    matchesObjectId hex (applySet p d) = matchesObjectId hex d := by
  simp [matchesObjectId, lookup_applySet_notMem p d _ h]

/-- Property access on any value that is not `null`/`undefined` succeeds, so
such a lesson element reshapes to its normalized pair. -/
theorem reshapeLesson_of_clean :
    ∀ l : Val, l ≠ .null → l ≠ .undefn → reshapeLesson l = .ok (normalizeLesson l)
  | .bool _, _, _ => rfl
  | .num _, _, _ => rfl
  | .str _, _, _ => rfl
  | .arr _, _, _ => rfl
  | .obj _, _, _ => rfl
  | .oid _, _, _ => rfl
  | .null, h, _ => absurd rfl h
  | .undefn, _, h => absurd rfl h

/-- A lesson array without `null`/`undefined` elements reshapes successfully
into its normalized form. -/
theorem reshapeLessons_of_clean (ls : ValList) (h : cleanElems ls = true) :
    reshapeLessons ls = .ok (normalizeLessons ls) := by
  induction ls with
  | nil => rfl
  | cons l rest ih =>
    rw [cleanElems] at h
    simp only [Bool.and_eq_true, decide_eq_true_eq] at h
    obtain ⟨⟨h1, h2⟩, h3⟩ := h
    rw [reshapeLessons, reshapeLesson_of_clean l h1 h2, ih h3, normalizeLessons]

/-- Lookup walks past a field with a different key. -/
theorem lookup_cons_ne (k₁ key : String) (v : Val) (rest : FieldList)
    (h : k₁ ≠ key) :
    (FieldList.cons k₁ v rest).lookup key = rest.lookup key := by
  simp [FieldList.lookup, h]

/-- Full characterization of the `POST /order` success path: when the body's
`lessons` field holds an array free of `null`/`undefined` elements, the
handler appends exactly one document — the store id plus the four
handler-written fields, with the reshaped lesson array — bumps the id
counter, and answers `{insertedId}`. -/
theorem postOrder_success (db : DB) (bf : FieldList) (ls : ValList)
    (hl : bf.lookup "lessons" = some (.arr ls))
    (hc : cleanElems ls = true) :
    postOrder db (.obj bf) =
      (⟨db.lessons,
        db.orders ++
          [.cons "_id" (.oid (genOid db.nextId))
            (serializeFields
              (.cons "name" ((bf.lookup "name").getD .undefn)
                (.cons "phone" ((bf.lookup "phone").getD .undefn)
                  (.cons "lessons" (.arr (normalizeLessons ls))
                    (.cons "totalPrice" ((bf.lookup "totalPrice").getD .undefn) .nil)))))],
        db.nextId + 1⟩,
       .json 200 (.obj (.cons "insertedId" (.oid (genOid db.nextId)) .nil))) := by
  unfold postOrder
  dsimp only
  rw [hl]
  dsimp only
  rw [reshapeLessons_of_clean ls hc]
  dsimp only [insertOrder]

end Fullstack

namespace Fullstack

/-! Claim theorems.  Each claim of the specification is settled by exactly one
theorem below; corrected claims additionally carry a concrete counterexample
against the claim as originally stated. -/

/-- Claim C1, amended: for every POST /order request whose body contains a
lessons array none of whose elements is null or undefined, the Orders-create
handler reshapes that array into a normalized list of pairs of `lessonID` and
the requested quantity (stored under this deployment's field name `spaces`),
inserts an Order document containing the caller's name, phone, normalized
lessons and totalPrice, and responds with the generated identity of the new
document as `{insertedId}`.  (The original claim, quantifying over every body
with a lessons array, fails when an element is `null`: property access throws
and the handler answers its generic 500 — see the counterexample.) -/
theorem post_order_creates (db : DB) (bf : FieldList) (ls : ValList)
    (hl : bf.lookup "lessons" = some (.arr ls))
    (hc : cleanElems ls = true) :
    postOrder db (.obj bf) =
      (⟨db.lessons,
        db.orders ++
          [.cons "_id" (.oid (genOid db.nextId))
            (serializeFields
              (.cons "name" ((bf.lookup "name").getD .undefn)
                (.cons "phone" ((bf.lookup "phone").getD .undefn)
                  (.cons "lessons" (.arr (normalizeLessons ls))
                    (.cons "totalPrice" ((bf.lookup "totalPrice").getD .undefn) .nil)))))],
        db.nextId + 1⟩,
       .json 200 (.obj (.cons "insertedId" (.oid (genOid db.nextId)) .nil))) :=
  postOrder_success db bf ls hl hc

/-- Claim C1, witness: the amended theorem applied to a concrete request. -/
theorem post_order_creates_witness :
    goodOrderFields.lookup "lessons" = some (.arr goodLessonArr) ∧
    cleanElems goodLessonArr = true ∧
    postOrder emptyDB (.obj goodOrderFields) =
      (⟨[], [.cons "_id" (.oid (genOid 0))
          (serializeFields
            (.cons "name" ((goodOrderFields.lookup "name").getD .undefn)
              (.cons "phone" ((goodOrderFields.lookup "phone").getD .undefn)
                (.cons "lessons" (.arr (normalizeLessons goodLessonArr))
                  (.cons "totalPrice" ((goodOrderFields.lookup "totalPrice").getD .undefn) .nil)))))],
        1⟩,
       .json 200 (.obj (.cons "insertedId" (.oid (genOid 0)) .nil))) :=
  ⟨by decide, by decide,
    post_order_creates emptyDB goodOrderFields goodLessonArr (by decide) (by decide)⟩

/-- Claim C1, counterexample to the original statement: this body contains a
lessons array (its single element is `null`), yet the handler inserts nothing
and answers the generic 500 create-failure rather than `{insertedId}` —
`lesson.lessonID` throws a TypeError on a `null` element. -/
theorem post_order_null_element_counterexample :
    (postOrder emptyDB nullLessonBody).1.orders = [] ∧
    (postOrder emptyDB nullLessonBody).2 = createFailResp ∧
    createFailResp.statusCode = 500 := by decide

/-- Claim C2, amended: after POST /order with body `{name:"A", phone:"123",
lessons:[{lessonID:"L1", spaces:2}], totalPrice:40}` on an empty Orders
collection, the create response carries the generated identity, and GET
/orders returns exactly one document whose lessons array is
`[{lessonID:"L1", spaces:2}]` (the requested quantity under this deployment's
field name `spaces`) and whose totalPrice is 40.  (The original claim's body
carries the quantity under `availability`, which this handler does not read —
see the counterexample.) -/
theorem order_round_trip_spaces :
    (postOrder emptyDB (.obj goodOrderFields)).2 =
      .json 200 (.obj (.cons "insertedId" (.oid (genOid 0)) .nil)) ∧
    (getOrders (postOrder emptyDB (.obj goodOrderFields)).1).2 =
      .json 200 (.arr (.cons (.obj (.cons "_id" (.oid (genOid 0))
        (.cons "name" (.str "A")
          (.cons "phone" (.str "123")
            (.cons "lessons" (.arr (.cons (.obj (.cons "lessonID" (.str "L1")
                (.cons "spaces" (.num 2) .nil))) .nil))
              (.cons "totalPrice" (.num 40) .nil)))))) .nil)) := by decide

/-- Claim C2, counterexample to the original statement: with the claim's
literal body (quantity under `availability`), the handler reads
`lesson.spaces` — absent, hence undefined, stored as null — so the single
listed document's lessons array is `[{lessonID:"L1", spaces:null}]`, not the
claimed `[{lessonID:"L1", requestedQuantity:2}]`. -/
theorem order_round_trip_availability_counterexample :
    (postOrder emptyDB availabilityBody).1.orders.length = 1 ∧
    (∀ d ∈ (postOrder emptyDB availabilityBody).1.orders,
      d.lookup "totalPrice" = some (.num 40) ∧
      d.lookup "lessons" = some (.arr (.cons (.obj (.cons "lessonID" (.str "L1")
          (.cons "spaces" .null .nil))) .nil)) ∧
      d.lookup "lessons" ≠ some (.arr (.cons (.obj (.cons "lessonID" (.str "L1")
          (.cons "requestedQuantity" (.num 2) .nil))) .nil))) := by decide

/-- Claim C3: for every POST /order request whose body lacks the lessons
field, the response is the handler's generic 500 failure and no document is
inserted — the store state is unchanged. -/
theorem post_order_missing_lessons (db : DB) (bf : FieldList)
    (h : bf.lookup "lessons" = none) :
    postOrder db (.obj bf) = (db, createFailResp) ∧
    createFailResp.statusCode = 500 := by
  refine ⟨?_, rfl⟩
  unfold postOrder
  dsimp only
  rw [h]

/-- Claim C3, witness: the theorem applied to a concrete lessons-less body. -/
theorem post_order_missing_lessons_witness :
    (FieldList.cons "name" (Val.str "A") .nil).lookup "lessons" = none ∧
    (postOrder emptyDB (.obj (.cons "name" (.str "A") .nil)) = (emptyDB, createFailResp) ∧
      createFailResp.statusCode = 500) :=
  ⟨by decide, post_order_missing_lessons emptyDB (.cons "name" (.str "A") .nil) (by decide)⟩

/-- Claim C4: for every update request (PUT /lessons/:id, PUT /programs/:id
or PUT /order/:orderNo) whose well-formed identity filter matches zero
documents, the response reports the endpoint's 404 Not-Found and no document
in any collection is altered. -/
theorem update_zero_matches_not_found (ep : UpdateEndpoint) (db : DB)
    (seg : String) (body : FieldList)
    (hwf : wellFormedSeg ep seg = true)
    (hzero : ∀ d ∈ targetDocs ep db, segFilter ep seg d = false) :
    runUpdate ep db seg body = (db, endpointNotFound ep) := by
  cases ep with
  | lessonsById =>
    have hv : isValidObjectIdString seg = true := hwf
    have hz : ∀ d ∈ db.lessons, matchesObjectId (normalizeId seg) d = false := hzero
    show putLessonById db seg body = (db, lessonNotFoundResp)
    unfold putLessonById
    rw [if_pos hv, updateFirst_of_none (matchesObjectId (normalizeId seg)) body db.lessons hz]
    rfl
  | programsById =>
    have hv : isValidObjectIdString seg = true := hwf
    have hz : ∀ d ∈ db.lessons, matchesObjectId (normalizeId seg) d = false := hzero
    show putProgramById db seg body = (db, programNotFoundResp)
    unfold putProgramById
    rw [if_pos hv, updateFirst_of_none (matchesObjectId (normalizeId seg)) body db.lessons hz]
    rfl
  | orderByNo =>
    have hz : ∀ d ∈ db.orders, matchesOrderFilter (parseIntJS seg) d = false := hzero
    show putOrderByNo db seg body = (db, orderNotFoundResp)
    unfold putOrderByNo
    rw [updateFirst_of_none (matchesOrderFilter (parseIntJS seg)) body db.orders hz]
    rfl

/-- Claim C4, witness: a valid lesson id matching no stored document. -/
theorem update_zero_matches_not_found_witness :
    wellFormedSeg .lessonsById "bbbbbbbbbbbbbbbbbbbbbbbb" = true ∧
    (∀ d ∈ targetDocs .lessonsById lessonDB,
      segFilter .lessonsById "bbbbbbbbbbbbbbbbbbbbbbbb" d = false) ∧
    runUpdate .lessonsById lessonDB "bbbbbbbbbbbbbbbbbbbbbbbb" pricePatch =
      (lessonDB, endpointNotFound .lessonsById) :=
  ⟨by decide, by decide,
    update_zero_matches_not_found .lessonsById lessonDB _ pricePatch (by decide) (by decide)⟩

/-- Claim C5: for every PUT /order/:orderNo request whose path segment does
not parse as an integer, `parseInt` yields NaN, the identity filter matches
no document, and the response is the Order-not-found 404 — never a crash and
never a distinct parse-error kind — regardless of the contents of the Orders
collection. -/
theorem put_order_non_numeric_not_found (db : DB) (s : String) (body : FieldList)
    (h : parseIntJS s = none) :
    putOrderByNo db s body = (db, orderNotFoundResp) := by
  unfold putOrderByNo
  rw [h, updateFirst_of_none (matchesOrderFilter none) body db.orders (fun d _ => rfl)]
  rfl

/-- Claim C5, witness: the theorem applied to the segment "abc" over a
non-empty Orders collection. -/
theorem put_order_non_numeric_not_found_witness :
    parseIntJS "abc" = none ∧
    putOrderByNo orderNo5DB "abc" pricePatch = (orderNo5DB, orderNotFoundResp) :=
  ⟨by decide, put_order_non_numeric_not_found orderNo5DB "abc" pricePatch (by decide)⟩

/-- Claim C6: for every valid Lesson identity whose first match in the store
is `d`, a merge-patch update with body `{f: v}` followed by a list read shows
that document with field `f` equal to `v` and every other field unchanged;
only the patched field is written, and the Orders collection is untouched. -/
theorem lesson_merge_patch_frame (db : DB) (id f : String) (v : Val)
    (pre post : List FieldList) (d : FieldList)
    (hid : isValidObjectIdString id = true)
    (hdec : db.lessons = pre ++ d :: post)
    (hpre : ∀ e ∈ pre, matchesObjectId (normalizeId id) e = false)
    (hd : matchesObjectId (normalizeId id) d = true) :
    (putLessonById db id (.cons f v .nil)).1 =
      ⟨pre ++ d.set f v :: post, db.orders, db.nextId⟩ ∧
    (getLessons (putLessonById db id (.cons f v .nil)).1).2 =
      .json 200 (.arr (docsToValList (pre ++ d.set f v :: post))) ∧
    (d.set f v).lookup f = some v ∧
    (∀ g, g ≠ f → (d.set f v).lookup g = d.lookup g) := by
  have h1 : (putLessonById db id (.cons f v .nil)).1 =
      ⟨pre ++ d.set f v :: post, db.orders, db.nextId⟩ := by
    unfold putLessonById
    rw [if_pos hid, hdec, updateFirst_decomp _ _ _ _ _ hpre hd]
    rfl
  exact ⟨h1, by rw [h1]; rfl, lookup_set_self d f v,
    fun g hg => lookup_set_ne d f g v hg⟩

/-- Claim C6, witness: patching the price of a concrete stored lesson. -/
theorem lesson_merge_patch_frame_witness :
    isValidObjectIdString "aaaaaaaaaaaaaaaaaaaaaaaa" = true ∧
    matchesObjectId (normalizeId "aaaaaaaaaaaaaaaaaaaaaaaa") sampleLessonDoc = true ∧
    ((putLessonById lessonDB "aaaaaaaaaaaaaaaaaaaaaaaa" (.cons "price" (.num 20) .nil)).1 =
      ⟨[sampleLessonDoc.set "price" (.num 20)], [], 0⟩ ∧
    (sampleLessonDoc.set "price" (.num 20)).lookup "price" = some (.num 20) ∧
    (sampleLessonDoc.set "price" (.num 20)).lookup "subject" = sampleLessonDoc.lookup "subject") := by
  have h := lesson_merge_patch_frame lessonDB "aaaaaaaaaaaaaaaaaaaaaaaa" "price" (.num 20)
    [] [] sampleLessonDoc (by decide) (by decide) (by decide) (by decide)
  exact ⟨by decide, by decide, h.1, h.2.2.1, h.2.2.2 "subject" (by decide)⟩

/-- Claim C7, amended: for every update endpoint, identity filter and
merge-patch body that does not write the field the identity filter selects on
(`orderNo`, respectively `_id`), issuing the same merge-patch twice in
succession yields the same final store state as issuing it once.  (Without
that proviso the original claim fails: a patch that rewrites the filter field
can make the second issue update a further matching document — see the
counterexample.) -/
theorem update_idempotent (ep : UpdateEndpoint) (db : DB) (seg : String)
    (body : FieldList) (hnd : body.keys.Nodup)
    (hff : filterFieldName ep ∉ body.keys) :
    (runUpdate ep (runUpdate ep db seg body).1 seg body).1 =
      (runUpdate ep db seg body).1 := by
  cases ep with
  | orderByNo =>
    have hf : "orderNo" ∉ body.keys := hff
    have hpres : ∀ d, matchesOrderFilter (parseIntJS seg) d = true →
        matchesOrderFilter (parseIntJS seg) (applySet body d) = true := by
      intro d hd
      rw [matchesOrderFilter_applySet _ _ _ hf]
      exact hd
    show (putOrderByNo (putOrderByNo db seg body).1 seg body).1 =
      (putOrderByNo db seg body).1
    have hstate : ∀ db' : DB, (putOrderByNo db' seg body).1 =
        ⟨db'.lessons,
          (updateFirst (matchesOrderFilter (parseIntJS seg)) body db'.orders).docs,
          db'.nextId⟩ := by
      intro db'
      unfold putOrderByNo
      by_cases h : (updateFirst (matchesOrderFilter (parseIntJS seg)) body db'.orders).matched = 0
      · rw [if_pos h]
      · rw [if_neg h]
    rw [hstate db, hstate]
    simp only [updateFirst_idem _ _ hnd hpres]
  | lessonsById =>
    have hf : "_id" ∉ body.keys := hff
    have hpres : ∀ d, matchesObjectId (normalizeId seg) d = true →
        matchesObjectId (normalizeId seg) (applySet body d) = true := by
      intro d hd
      rw [matchesObjectId_applySet _ _ _ hf]
      exact hd
    show (putLessonById (putLessonById db seg body).1 seg body).1 =
      (putLessonById db seg body).1
    by_cases hv : isValidObjectIdString seg = true
    · have hstate : ∀ db' : DB, (putLessonById db' seg body).1 =
          ⟨(updateFirst (matchesObjectId (normalizeId seg)) body db'.lessons).docs,
            db'.orders, db'.nextId⟩ := by
        intro db'
        unfold putLessonById
        rw [if_pos hv]
        by_cases h : (updateFirst (matchesObjectId (normalizeId seg)) body db'.lessons).matched = 0
        · rw [if_pos h]
        · rw [if_neg h]
      rw [hstate db, hstate]
      simp only [updateFirst_idem _ _ hnd hpres]
    · have hone : ∀ db' : DB, putLessonById db' seg body = (db', internalErrorResp) := by
        intro db'
        unfold putLessonById
        rw [if_neg hv]
      rw [hone db, hone]
  | programsById =>
    have hf : "_id" ∉ body.keys := hff
    have hpres : ∀ d, matchesObjectId (normalizeId seg) d = true →
        matchesObjectId (normalizeId seg) (applySet body d) = true := by
      intro d hd
      rw [matchesObjectId_applySet _ _ _ hf]
      exact hd
    show (putProgramById (putProgramById db seg body).1 seg body).1 =
      (putProgramById db seg body).1
    by_cases hv : isValidObjectIdString seg = true
    · have hstate : ∀ db' : DB, (putProgramById db' seg body).1 =
          ⟨(updateFirst (matchesObjectId (normalizeId seg)) body db'.lessons).docs,
            db'.orders, db'.nextId⟩ := by
        intro db'
        unfold putProgramById
        rw [if_pos hv]
        by_cases h : (updateFirst (matchesObjectId (normalizeId seg)) body db'.lessons).matched = 0
        · rw [if_pos h]
        · rw [if_neg h]
      rw [hstate db, hstate]
      simp only [updateFirst_idem _ _ hnd hpres]
    · have hone : ∀ db' : DB, putProgramById db' seg body = (db', internalErrorResp) := by
        intro db'
        unfold putProgramById
        rw [if_neg hv]
      rw [hone db, hone]

/-- Claim C7, witness: a patch avoiding the filter field is idempotent on a
concrete matching order. -/
theorem update_idempotent_witness :
    pricePatch.keys.Nodup ∧
    filterFieldName .orderByNo ∉ pricePatch.keys ∧
    (runUpdate .orderByNo (runUpdate .orderByNo orderNo5DB "5" pricePatch).1 "5" pricePatch).1 =
      (runUpdate .orderByNo orderNo5DB "5" pricePatch).1 :=
  ⟨by decide, by decide,
    update_idempotent .orderByNo orderNo5DB "5" pricePatch (by decide) (by decide)⟩

/-- Claim C7, counterexample to the original statement: with two orders both
holding orderNo 5, the patch `{orderNo: 99}` issued twice through
PUT /order/5 rewrites the second document as well, so the final store state
differs from issuing it once. -/
theorem update_idempotent_counterexample :
    (runUpdate .orderByNo (runUpdate .orderByNo dupOrdersDB "5" orderNoPatch).1 "5" orderNoPatch).1 ≠
      (runUpdate .orderByNo dupOrdersDB "5" orderNoPatch).1 := by decide

/-- Claim C8, amended: for every lessons/programs update request whose path
identity is not a valid store identity token, the ObjectId constructor throws,
the error reaches the global handler, the response is the generic
500-equivalent in every observed variant (no observed variant answers a
400-equivalent), and no document is altered. -/
theorem invalid_identity_update (db : DB) (id : String) (body : FieldList)
    (h : isValidObjectIdString id = false) :
    putLessonById db id body = (db, internalErrorResp) ∧
    putProgramById db id body = (db, internalErrorResp) ∧
    internalErrorResp.statusCode = 500 := by
  have h' : ¬isValidObjectIdString id = true := by simp [h]
  refine ⟨?_, ?_, rfl⟩
  · unfold putLessonById
    rw [if_neg h']
  · unfold putProgramById
    rw [if_neg h']

/-- Claim C8, witness: the amended theorem at the invalid id "zzz". -/
theorem invalid_identity_update_witness :
    isValidObjectIdString "zzz" = false ∧
    (putLessonById lessonDB "zzz" orderNoPatch = (lessonDB, internalErrorResp) ∧
      putProgramById lessonDB "zzz" orderNoPatch = (lessonDB, internalErrorResp) ∧
      internalErrorResp.statusCode = 500) :=
  ⟨by decide, invalid_identity_update lessonDB "zzz" orderNoPatch (by decide)⟩

/-- Claim C8, counterexample to the original statement: at the invalid id
"abc" both observed variants (PUT /lessons/:id of server.js and
PUT /programs/:id of part_000) answer the generic 500 — no observed variant
surfaces the invalid identity as a 400-equivalent. -/
theorem invalid_identity_counterexample :
    putLessonById lessonDB "abc" pricePatch = (lessonDB, internalErrorResp) ∧
    putProgramById lessonDB "abc" pricePatch = (lessonDB, internalErrorResp) ∧
    internalErrorResp.statusCode ≠ 400 := by decide

/-- Claim C9: for every request that invokes the collection resolver before
the store connection is established (`db1` still undefined), the property
access throws, the catch forwards the error, and the terminal error responder
answers with the generic 500 — for every continuation, so request handling
never proceeds with an unbound collection. -/
theorem resolver_before_connect_fatal (name : String) (k : String → Resp) :
    collectionParam none name k = internalErrorResp ∧
    internalErrorResp.statusCode = 500 :=
  ⟨rfl, rfl⟩

/-- Claim C10: every Order document created through POST /order carries
exactly the store-generated `_id` plus the four handler-written fields name,
phone, lessons and totalPrice — every extra body field, including an orderNo,
is discarded — so no such document is ever matched by the
PUT /order/:orderNo identity filter, whatever the path segment. -/
theorem created_order_never_matches_orderNo (db : DB) (bf : FieldList)
    (ls : ValList)
    (hl : bf.lookup "lessons" = some (.arr ls))
    (hc : cleanElems ls = true) :
    ∃ d : FieldList,
      (postOrder db (.obj bf)).1.orders = db.orders ++ [d] ∧
      d.keys = ["_id", "name", "phone", "lessons", "totalPrice"] ∧
      ∀ s : String, matchesOrderFilter (parseIntJS s) d = false := by
  refine ⟨.cons "_id" (.oid (genOid db.nextId))
    (serializeFields
      (.cons "name" ((bf.lookup "name").getD .undefn)
        (.cons "phone" ((bf.lookup "phone").getD .undefn)
          (.cons "lessons" (.arr (normalizeLessons ls))
            (.cons "totalPrice" ((bf.lookup "totalPrice").getD .undefn) .nil))))),
    ?_, ?_, ?_⟩
  · rw [postOrder_success db bf ls hl hc]
  · rfl
  · intro s
    cases hp : parseIntJS s with
    | none => rfl
    | some n =>
      have hlk : (FieldList.cons "_id" (Val.oid (genOid db.nextId))
          (serializeFields
            (.cons "name" ((bf.lookup "name").getD .undefn)
              (.cons "phone" ((bf.lookup "phone").getD .undefn)
                (.cons "lessons" (.arr (normalizeLessons ls))
                  (.cons "totalPrice" ((bf.lookup "totalPrice").getD .undefn) .nil)))))).lookup "orderNo" = none := by
        rw [lookup_cons_ne _ _ _ _ (by decide)]
        rw [serializeFields, lookup_cons_ne _ _ _ _ (by decide)]
        rw [serializeFields, lookup_cons_ne _ _ _ _ (by decide)]
        rw [serializeFields, lookup_cons_ne _ _ _ _ (by decide)]
        rw [serializeFields, lookup_cons_ne _ _ _ _ (by decide)]
        rfl
      simp [matchesOrderFilter, hlk]

/-- Claim C10, witness: the theorem applied to a concrete creation request. -/
theorem created_order_never_matches_orderNo_witness :
    goodOrderFields.lookup "lessons" = some (.arr goodLessonArr) ∧
    cleanElems goodLessonArr = true ∧
    ∃ d : FieldList,
      (postOrder emptyDB (.obj goodOrderFields)).1.orders = emptyDB.orders ++ [d] ∧
      d.keys = ["_id", "name", "phone", "lessons", "totalPrice"] ∧
      ∀ s : String, matchesOrderFilter (parseIntJS s) d = false :=
  ⟨by decide, by decide,
    created_order_never_matches_orderNo emptyDB goodOrderFields goodLessonArr
      (by decide) (by decide)⟩

end Fullstack
